import Mathlib

/-!
Verification of the refresh-token lifecycle manager of the sns-app
repository (`src/api/src/lib/refreshStore.ts`).

Modelling choices (shallow embedding):

* The store's two JavaScript `Map`s (`byJti : jti → Record`,
  `byTokenHash : tokenHash → jti`) are modelled as association lists with
  `Map.set` / `Map.get` semantics (`setKV` replaces an existing key in
  place, `getKV` returns the first binding).
* `crypto.randomBytes` (the 256-bit token secret) and `crypto.randomUUID`
  (the jti) are modelled by a freshness counter `nextId` carried in the
  store state: each generated value is the current counter, which is then
  incremented.  This realises the uniqueness that the randomness provides
  with overwhelming probability.
* `crypto.createHash("sha256")` is a deterministic injective digest on
  the (collision-free, by the above) token space; it is modelled by the
  injective function `hashToken` on the model's token representation.
* `Date.now()` is passed in explicitly as a UNIX-seconds argument `now`,
  and the module-level constant `REFRESH_TTL_SECONDS` as the argument
  `ttl`.
* JavaScript exceptions (`INVALID_REFRESH`, `REVOKED_REFRESH`,
  `EXPIRED_REFRESH`) become an `Except RefreshError` result; a throwing
  call leaves the store unchanged, as the source throws before mutating.
* The optional JS fields `rotatedTo?: string` and `revoked?: boolean`
  become `Option Nat` (absent = `none`) and `Bool` (absent = `false`,
  matching their use in boolean positions in the source).
-/

/-- Error signals of `verify` / `rotate`.  `invalid` is the
`INVALID_REFRESH` throw (the spec's `NotFound`), `revokedErr` the
`REVOKED_REFRESH` throw (`Revoked`), `expiredErr` the `EXPIRED_REFRESH`
throw (`Expired`). -/
inductive RefreshError where
  | invalid
  | revokedErr
  | expiredErr
deriving Repr, DecidableEq

/-- The stored record, from `type Record` in `refreshStore.ts`. -/
structure RefreshRecord where
  jti : Nat
  userId : String
  tokenHash : Nat
  expiresAt : Nat
  rotatedTo : Option Nat
  revoked : Bool
deriving Repr, DecidableEq

/-- `RefreshIssueResult` of the source: what `issue` returns. -/
structure RefreshIssueResult where
  token : Nat
  jti : Nat
  userId : String
  expiresAt : Nat
deriving Repr, DecidableEq

/-- `RefreshVerifyResult` of the source: what `verify` returns. -/
structure RefreshVerifyResult where
  jti : Nat
  userId : String
  expiresAt : Nat
deriving Repr, DecidableEq

/-- `Map.get`: first binding of the key, if any. -/
def getKV (k : Nat) : List (Nat × α) → Option α
  | [] => none
  | (k2, v) :: rest => if k = k2 then some v else getKV k rest

/-- `Map.set`: replace the binding in place if the key is present,
append otherwise (JS `Map` keeps insertion order). -/
def setKV (k : Nat) (v : α) : List (Nat × α) → List (Nat × α)
  | [] => [(k, v)]
  | (k2, v2) :: rest =>
    if k = k2 then (k, v) :: rest else (k2, v2) :: setKV k v rest

/-- The manager's whole mutable state: the two maps of the source plus
the freshness counter standing in for the crypto randomness. -/
structure Store where
  byJti : List (Nat × RefreshRecord)
  byTokenHash : List (Nat × Nat)
  nextId : Nat
deriving Repr, DecidableEq

/-- The empty maps the module starts with. -/
def initStore : Store := { byJti := [], byTokenHash := [], nextId := 0 }

/-- `hashToken`: SHA-256, modelled as an injective digest on the model's
token space (the identity on `Nat`); the security-relevant property used
by the code is that distinct random tokens have distinct digests. -/
def hashToken (token : Nat) : Nat := token

/-- `isExpired(nowSec, expiresAt) = nowSec >= expiresAt`. -/
def isExpired (nowSec expiresAt : Nat) : Bool := nowSec ≥ expiresAt

/-- `issue(userId)`: generate a token and a jti (fresh, from the
counter), store the new record under both indexes, return the issue
result together with the updated store. -/
def issue (ttl now : Nat) (userId : String) (s : Store) :
    RefreshIssueResult × Store :=
  let token := s.nextId
  let tokenHash := hashToken token
  let jti := s.nextId
  let r : RefreshRecord :=
    { jti := jti, userId := userId, tokenHash := tokenHash,
      expiresAt := now + ttl, rotatedTo := none, revoked := false }
  ({ token := token, jti := jti, userId := userId, expiresAt := r.expiresAt },
   { byJti := setKV jti r s.byJti,
     byTokenHash := setKV tokenHash jti s.byTokenHash,
     nextId := s.nextId + 1 })

/-- `verify(token)`: digest lookup, then record lookup, then the
`revoked` check, then the expiry check. -/
def verify (now : Nat) (token : Nat) (s : Store) :
    Except RefreshError RefreshVerifyResult :=
  match getKV (hashToken token) s.byTokenHash with
  | none => .error .invalid
  | some jti =>
    match getKV jti s.byJti with
    | none => .error .invalid
    | some r =>
      if r.revoked then .error .revokedErr
      else if isExpired now r.expiresAt then .error .expiredErr
      else .ok { jti := r.jti, userId := r.userId, expiresAt := r.expiresAt }

/-- `rotate(oldToken)`: look the record up (throw `INVALID_REFRESH` if
absent), read `reused = !!rec.rotatedTo`, mark the record revoked, issue
a successor for the same user, then set the record's `rotatedTo` to the
successor's jti.  The source mutates the looked-up object in place; the
final write is therefore visible in `byJti` only while that object is
still the one stored under its jti — if the successor's jti collided
with the old jti (impossible with fresh ids), `issue`'s insertion would
have detached the old object and the `rotatedTo` write would be lost,
which the guard reproduces. -/
def rotate (ttl now : Nat) (oldToken : Nat) (s : Store) :
    Except RefreshError (RefreshIssueResult × Bool) × Store :=
  match getKV (hashToken oldToken) s.byTokenHash with
  | none => (.error .invalid, s)
  | some jti =>
    match getKV jti s.byJti with
    | none => (.error .invalid, s)
    | some r =>
      let reused := r.rotatedTo.isSome
      let s1 : Store := { s with byJti := setKV jti { r with revoked := true } s.byJti }
      let out := issue ttl now r.userId s1
      let next := out.1
      let s2 := out.2
      let s3 : Store :=
        if next.jti = jti then s2
        else { s2 with
               byJti := setKV jti { r with revoked := true, rotatedTo := some next.jti } s2.byJti }
      (.ok (next, reused), s3)

/-- `revokeByJti(jti)`: mark revoked if present, otherwise do nothing. -/
def revokeByJti (jti : Nat) (s : Store) : Store :=
  match getKV jti s.byJti with
  | none => s
  | some r => { s with byJti := setKV jti { r with revoked := true } s.byJti }

/-- The record, if any, that a `verify`/`rotate` call on this token
resolves to: digest lookup composed with jti lookup. -/
def matchedRecord (token : Nat) (s : Store) : Option RefreshRecord :=
  match getKV (hashToken token) s.byTokenHash with
  | none => none
  | some jti => getKV jti s.byJti

/-- `parseInt(ds, 10)` on a string of decimal digits. -/
def digitsToNat (ds : List Char) : Nat :=
  ds.foldl (fun acc c => acc * 10 + (c.toNat - Char.toNat (Char.ofNat 48))) 0

/-- The lowercased non-digit tail of the configuration string, after the
maximal leading run of digits (the regex is `^(\d+)(ms|s|m|h|d)?$/i`;
the unit alternatives contain no digit, so the maximal digit run is the
only possible capture for `(\d+)`). -/
def ttlTail (s : String) : List Char :=
  (s.toList.dropWhile Char.isDigit).map Char.toLower

/-- Whether the configuration string matches the regex
`^(\d+)(ms|s|m|h|d)?$/i` of `parseTtlSeconds`. -/
def ttlMatches (s : String) : Bool :=
  decide (s.toList.takeWhile Char.isDigit ≠ []) &&
    (ttlTail s = [] || ttlTail s = ['m', 's'] || ttlTail s = ['s'] ||
      ttlTail s = ['m'] || ttlTail s = ['h'] || ttlTail s = ['d'])

/-- `parseTtlSeconds(input, fallback)` of the source: `input ?? fallback`
is matched against `^(\d+)(ms|s|m|h|d)?$/i`; no match gives 30 days,
otherwise the number is scaled by the unit (`s` when absent), with
`Math.ceil(n / 1000)` for `ms`. -/
def parseTtlSeconds (input : Option String) (fallback : String) : Nat :=
  let s := input.getD fallback
  if ttlMatches s then
    let n := digitsToNat (s.toList.takeWhile Char.isDigit)
    let unit := if ttlTail s = [] then ['s'] else ttlTail s
    if unit = ['m', 's'] then (n + 999) / 1000
    else if unit = ['s'] then n
    else if unit = ['m'] then n * 60
    else if unit = ['h'] then n * 3600
    else if unit = ['d'] then n * 86400
    else n
  else 30 * 24 * 3600

/-- `REFRESH_TTL_SECONDS = parseTtlSeconds(process.env.REFRESH_TOKEN_TTL, "30d")`,
as a function of the environment variable's value. -/
def refreshTtlSeconds (env : Option String) : Nat :=
  parseTtlSeconds env "30d"

/-! ### Lookup lemmas for the association-list maps -/

theorem getKV_setKV_self (k : Nat) (v : α) (l : List (Nat × α)) :
    getKV k (setKV k v l) = some v := by
  induction l with
  | nil => simp [getKV, setKV]
  | cons p rest ih =>
    by_cases h : k = p.1
    · simp [getKV, setKV, h]
    · simp [getKV, setKV, h, ih]

theorem getKV_setKV_ne (k k2 : Nat) (v : α) (l : List (Nat × α))
    (h : k ≠ k2) : getKV k (setKV k2 v l) = getKV k l := by
  induction l with
  | nil => simp [getKV, setKV, h]
  | cons p rest ih =>
    by_cases h2 : k2 = p.1
    · subst h2
      simp [getKV, setKV, h]
    · by_cases h3 : k = p.1
      · simp [getKV, setKV, h2, h3]
      · simp [getKV, setKV, h2, h3, ih]

theorem setKV_setKV_self (k : Nat) (v w : α) (l : List (Nat × α)) :
    setKV k v (setKV k w l) = setKV k v l := by
  induction l with
  | nil => simp [setKV]
  | cons p rest ih =>
    by_cases h : k = p.1
    · simp [setKV, h]
    · simp [setKV, h, ih]

/-! ### Unfolding lemmas for the operations -/

/-- `verify` as a case split on the matched record: not-found, then
revoked, then expired, then success. -/
theorem verify_eq (now t : Nat) (s : Store) :
    verify now t s =
      (match matchedRecord t s with
       | none => Except.error RefreshError.invalid
       | some r =>
         if r.revoked then Except.error RefreshError.revokedErr
         else if isExpired now r.expiresAt then Except.error RefreshError.expiredErr
         else Except.ok { jti := r.jti, userId := r.userId, expiresAt := r.expiresAt }) := by
  unfold verify matchedRecord
  cases getKV (hashToken t) s.byTokenHash with
  | none => rfl
  | some j =>
    cases getKV j s.byJti with
    | none => rfl
    | some r => rfl

/-- A successful `verify` resolves to a record that is not revoked. -/
theorem verify_ok_not_revoked (now t : Nat) (s : Store) (v : RefreshVerifyResult)
    (h : verify now t s = Except.ok v) :
    ∃ r, matchedRecord t s = some r ∧ r.revoked = false := by
  rw [verify_eq] at h
  cases hm : matchedRecord t s with
  | none => rw [hm] at h; exact absurd h (by simp)
  | some r =>
    rw [hm] at h
    refine ⟨r, rfl, ?_⟩
    by_cases hr : r.revoked
    · simp [hr] at h
    · simpa using hr

/-- The full effect of a successful `rotate` when the successor's fresh
jti does not collide with the matched jti: result, updated maps, and
counter. -/
theorem rotate_spec (ttl now t j : Nat) (r : RefreshRecord) (s : Store)
    (hT : getKV (hashToken t) s.byTokenHash = some j)
    (hJ : getKV j s.byJti = some r)
    (hF : s.nextId ≠ j) :
    rotate ttl now t s =
      (Except.ok ({ token := s.nextId, jti := s.nextId, userId := r.userId,
                    expiresAt := now + ttl }, r.rotatedTo.isSome),
       { byJti := setKV j { r with revoked := true, rotatedTo := some s.nextId }
                    (setKV s.nextId
                      { jti := s.nextId, userId := r.userId, tokenHash := hashToken s.nextId,
                        expiresAt := now + ttl, rotatedTo := none, revoked := false }
                      (setKV j { r with revoked := true } s.byJti)),
         byTokenHash := setKV (hashToken s.nextId) s.nextId s.byTokenHash,
         nextId := s.nextId + 1 }) := by
  unfold rotate
  simp only [hashToken] at hT ⊢
  simp only [hT, hJ, issue, hashToken]
  rw [if_neg hF]

/-- The full effect of `issue`. -/
theorem issue_spec (ttl now : Nat) (u : String) (s : Store) :
    issue ttl now u s =
      ({ token := s.nextId, jti := s.nextId, userId := u, expiresAt := now + ttl },
       { byJti := setKV s.nextId
                    { jti := s.nextId, userId := u, tokenHash := hashToken s.nextId,
                      expiresAt := now + ttl, rotatedTo := none, revoked := false } s.byJti,
         byTokenHash := setKV (hashToken s.nextId) s.nextId s.byTokenHash,
         nextId := s.nextId + 1 }) := rfl

/-! ### Claim theorems -/

/-- Claim C1 (counterexample): the claim says a second `rotate` with the
same already-rotated token leaves the original record's `rotatedTo`
unchanged, still pointing to the first successor.  In the concrete run
issue, rotate, rotate, the first rotation sets `rotatedTo` of record 0
to the first successor's jti 1, but the second rotation overwrites it
with the second successor's jti 2. -/
theorem rotate_twice_changes_rotatedTo_cex :
    (rotate 100 0 0 (issue 100 0 "u" initStore).2).1 =
      Except.ok ({ token := 1, jti := 1, userId := "u", expiresAt := 100 }, false) ∧
    Option.map RefreshRecord.rotatedTo
      (getKV 0 (rotate 100 0 0 (issue 100 0 "u" initStore).2).2.byJti) = some (some 1) ∧
    Option.map RefreshRecord.rotatedTo
      (getKV 0 (rotate 100 0 0
        (rotate 100 0 0 (issue 100 0 "u" initStore).2).2).2.byJti) = some (some 2) ∧
    (some (some 2) : Option (Option Nat)) ≠ some (some 1) :=
  ⟨rfl, rfl, rfl, by decide⟩

/-- Claim C1 (amended): `rotatedTo` is written on every successful
`rotate`, not only the first: a second `rotate` with the same
already-rotated token returns `reused = true` and overwrites the
original record's `rotatedTo` with the new successor's jti (it is never
cleared — it stays `some`). -/
theorem rotate_overwrites_rotatedTo (ttl now t j x : Nat) (r : RefreshRecord) (s : Store)
    (hT : getKV (hashToken t) s.byTokenHash = some j)
    (hJ : getKV j s.byJti = some r)
    (hx : r.rotatedTo = some x)
    (hF : s.nextId ≠ j) :
    (rotate ttl now t s).1 =
      Except.ok ({ token := s.nextId, jti := s.nextId, userId := r.userId,
                   expiresAt := now + ttl }, true) ∧
    getKV j (rotate ttl now t s).2.byJti =
      some { r with revoked := true, rotatedTo := some s.nextId } := by
  rw [rotate_spec ttl now t j r s hT hJ hF]
  exact ⟨by simp [hx], by simp [getKV_setKV_self]⟩

/-- Witness for the amended C1 theorem, on the run issue, rotate,
rotate: the second rotation reports `reused = true` and repoints record
0's `rotatedTo` to the second successor jti 2. -/
theorem rotate_overwrites_rotatedTo_witness :
    (rotate 100 0 0 (rotate 100 0 0 (issue 100 0 "u" initStore).2).2).1 =
      Except.ok ({ token := 2, jti := 2, userId := "u", expiresAt := 100 }, true) ∧
    getKV 0 (rotate 100 0 0 (rotate 100 0 0 (issue 100 0 "u" initStore).2).2).2.byJti =
      some { jti := 0, userId := "u", tokenHash := 0, expiresAt := 100,
             rotatedTo := some 2, revoked := true } :=
  rotate_overwrites_rotatedTo 100 0 0 0 1
    { jti := 0, userId := "u", tokenHash := 0, expiresAt := 100,
      rotatedTo := some 1, revoked := true }
    (rotate 100 0 0 (issue 100 0 "u" initStore).2).2 rfl rfl rfl (by decide)

/-- Claim C4: `verify` fails with `NotFound` (`INVALID_REFRESH`) exactly
when no record matches the digest; otherwise `Revoked` when the record
is revoked — checked before expiry, so a revoked-and-expired record
yields `Revoked` — then `Expired` when `now ≥ expiresAt`, and otherwise
it succeeds with the record's jti, userId and expiresAt. -/
theorem verify_error_order (now t : Nat) (s : Store) :
    verify now t s =
      (match matchedRecord t s with
       | none => Except.error RefreshError.invalid
       | some r =>
         if r.revoked then Except.error RefreshError.revokedErr
         else if isExpired now r.expiresAt then Except.error RefreshError.expiredErr
         else Except.ok { jti := r.jti, userId := r.userId, expiresAt := r.expiresAt }) ∧
    (verify now t s = Except.error RefreshError.invalid ↔ matchedRecord t s = none) := by
  refine ⟨verify_eq now t s, ?_⟩
  rw [verify_eq]
  cases h : matchedRecord t s with
  | none => simp
  | some r =>
    simp only [Option.some_ne_none, iff_false]
    intro hh
    by_cases hr : r.revoked <;> by_cases he : isExpired now r.expiresAt <;>
      simp [hr, he] at hh

/-- Claim C6: `revokeByJti` is total (it returns a store, never a
failure); on a missing id it leaves the store unchanged, on a present id
it sets that record's `revoked` flag and touches nothing else, and it is
idempotent. -/
theorem revokeByJti_noop_or_revoke (j : Nat) (s : Store) :
    (getKV j s.byJti = none → revokeByJti j s = s) ∧
    (∀ r, getKV j s.byJti = some r →
      getKV j (revokeByJti j s).byJti = some { r with revoked := true } ∧
      (∀ k, k ≠ j → getKV k (revokeByJti j s).byJti = getKV k s.byJti) ∧
      (revokeByJti j s).byTokenHash = s.byTokenHash ∧
      (revokeByJti j s).nextId = s.nextId) ∧
    revokeByJti j (revokeByJti j s) = revokeByJti j s := by
  refine ⟨fun h => by unfold revokeByJti; rw [h], fun r h => ?_, ?_⟩
  · have hs : revokeByJti j s =
        { s with byJti := setKV j { r with revoked := true } s.byJti } := by
      unfold revokeByJti; rw [h]
    rw [hs]
    exact ⟨getKV_setKV_self _ _ _, fun k hk => getKV_setKV_ne _ _ _ _ hk, rfl, rfl⟩
  · cases h : getKV j s.byJti with
    | none =>
      have hs : revokeByJti j s = s := by unfold revokeByJti; rw [h]
      rw [hs]; exact hs
    | some r =>
      simp only [revokeByJti, h, getKV_setKV_self, setKV_setKV_self]

/-- Witness for C6: with the single-record store of one `issue`, revoking
the unknown id 5 is a no-op, and revoking id 0 flips its record's
`revoked` flag. -/
theorem revokeByJti_noop_or_revoke_witness :
    revokeByJti 5 (issue 100 0 "u" initStore).2 = (issue 100 0 "u" initStore).2 ∧
    getKV 0 (revokeByJti 0 (issue 100 0 "u" initStore).2).byJti =
      some { jti := 0, userId := "u", tokenHash := 0, expiresAt := 100,
             rotatedTo := none, revoked := true } :=
  ⟨(revokeByJti_noop_or_revoke 5 (issue 100 0 "u" initStore).2).1 rfl,
   ((revokeByJti_noop_or_revoke 0 (issue 100 0 "u" initStore).2).2.1
      { jti := 0, userId := "u", tokenHash := 0, expiresAt := 100,
        rotatedTo := none, revoked := false } rfl).1⟩

/-- Claim C8: a configuration string that does not match
`^(\d+)(ms|s|m|h|d)?$/i` makes `parseTtlSeconds` fall back to 30 days =
2 592 000 seconds, and an absent configuration uses the fallback "30d",
which also evaluates to 2 592 000; `issue` run with either TTL sets
`expiresAt = now + 2592000`. -/
theorem parseTtl_default_on_malformed (input fallback : String) (now : Nat)
    (u : String) (s : Store)
    (h : ttlMatches input = false) :
    parseTtlSeconds (some input) fallback = 2592000 ∧
    refreshTtlSeconds none = 2592000 ∧
    (issue (parseTtlSeconds (some input) fallback) now u s).1.expiresAt = now + 2592000 ∧
    (issue (refreshTtlSeconds none) now u s).1.expiresAt = now + 2592000 := by
  have h1 : parseTtlSeconds (some input) fallback = 2592000 := by
    unfold parseTtlSeconds
    simp [h]
  have h2 : refreshTtlSeconds none = 2592000 := by decide
  exact ⟨h1, h2, by rw [h1]; rfl, by rw [h2]; rfl⟩

/-- Witness for C8 at the malformed configuration string "abc". -/
theorem parseTtl_default_on_malformed_witness :
    parseTtlSeconds (some "abc") "30d" = 2592000 ∧
    refreshTtlSeconds none = 2592000 ∧
    (issue (parseTtlSeconds (some "abc") "30d") 0 "u" initStore).1.expiresAt = 0 + 2592000 ∧
    (issue (refreshTtlSeconds none) 0 "u" initStore).1.expiresAt = 0 + 2592000 :=
  parseTtl_default_on_malformed "abc" "30d" 0 "u" initStore (by decide)

/-- Claim C2: on a stored token, `rotate` returns `reused` equal to
whether the matched record's `rotatedTo` was already set, revokes the
matched record regardless of `reused`, creates exactly one successor
record via `issue` for the same subject, points the matched record's
`rotatedTo` at the successor's jti, returns the successor's issue result
with the flag, and afterwards `verify` of the old token fails with
`Revoked` — under fresh generation of the successor's jti and token. -/
theorem rotate_full_behavior (ttl now t j : Nat) (r : RefreshRecord) (s : Store)
    (hT : getKV (hashToken t) s.byTokenHash = some j)
    (hJ : getKV j s.byJti = some r)
    (hF : s.nextId ≠ j)
    (hTok : hashToken t ≠ hashToken s.nextId) :
    (rotate ttl now t s).1 =
      Except.ok ((issue ttl now r.userId
          { s with byJti := setKV j { r with revoked := true } s.byJti }).1,
        r.rotatedTo.isSome) ∧
    getKV j (rotate ttl now t s).2.byJti =
      some { r with revoked := true, rotatedTo := some s.nextId } ∧
    getKV s.nextId (rotate ttl now t s).2.byJti =
      some { jti := s.nextId, userId := r.userId, tokenHash := hashToken s.nextId,
             expiresAt := now + ttl, rotatedTo := none, revoked := false } ∧
    (∀ k, k ≠ j → k ≠ s.nextId →
      getKV k (rotate ttl now t s).2.byJti = getKV k s.byJti) ∧
    (∀ h2, h2 ≠ hashToken s.nextId →
      getKV h2 (rotate ttl now t s).2.byTokenHash = getKV h2 s.byTokenHash) ∧
    (∀ now2, verify now2 t (rotate ttl now t s).2 = Except.error RefreshError.revokedErr) := by
  rw [rotate_spec ttl now t j r s hT hJ hF]
  refine ⟨rfl, getKV_setKV_self _ _ _, ?_, ?_, ?_, ?_⟩
  · rw [getKV_setKV_ne _ _ _ _ hF]
    exact getKV_setKV_self _ _ _
  · intro k hkj hkn
    rw [getKV_setKV_ne _ _ _ _ hkj, getKV_setKV_ne _ _ _ _ hkn,
      getKV_setKV_ne _ _ _ _ hkj]
  · intro h2 hh
    exact getKV_setKV_ne _ _ _ _ hh
  · intro now2
    simp only [verify]
    rw [getKV_setKV_ne _ _ _ _ hTok, hT]
    simp only [getKV_setKV_self]
    rfl

/-- Witness for C2 on the store holding one freshly issued token: the
single rotation returns `reused = false` with the successor, the
original record ends revoked with `rotatedTo` pointing at jti 1, and
verifying the old token now reports `Revoked`. -/
theorem rotate_full_behavior_witness :
    (rotate 100 0 0 (issue 100 0 "u" initStore).2).1 =
      Except.ok ({ token := 1, jti := 1, userId := "u", expiresAt := 100 }, false) ∧
    getKV 0 (rotate 100 0 0 (issue 100 0 "u" initStore).2).2.byJti =
      some { jti := 0, userId := "u", tokenHash := 0, expiresAt := 100,
             rotatedTo := some 1, revoked := true } ∧
    verify 50 0 (rotate 100 0 0 (issue 100 0 "u" initStore).2).2 =
      Except.error RefreshError.revokedErr := by
  have h := rotate_full_behavior 100 0 0 0
    { jti := 0, userId := "u", tokenHash := 0, expiresAt := 100,
      rotatedTo := none, revoked := false }
    (issue 100 0 "u" initStore).2 rfl rfl (by decide) (by decide)
  exact ⟨h.1, h.2.1, h.2.2.2.2.2 50⟩

/-- Claim C3: under a positive TTL and fresh id generation (all stored
ids lie below the freshness counter), `issue` immediately followed by
`verify` of the returned token succeeds with the same subject, the same
jti as the issue result, and a jti different from every previously
stored record's key. -/
theorem issue_then_verify (ttl now : Nat) (u : String) (s : Store)
    (httl : 0 < ttl)
    (hfresh : ∀ k r, getKV k s.byJti = some r → k < s.nextId) :
    verify now (issue ttl now u s).1.token (issue ttl now u s).2 =
      Except.ok { jti := (issue ttl now u s).1.jti, userId := u,
                  expiresAt := (issue ttl now u s).1.expiresAt } ∧
    (∀ k r, getKV k s.byJti = some r → (issue ttl now u s).1.jti ≠ k) := by
  constructor
  · have hexp : isExpired now (now + ttl) = false := by
      simp only [isExpired, ge_iff_le, decide_eq_false_iff_not, not_le]
      omega
    simp only [verify, issue_spec, getKV_setKV_self, hexp]
    rfl
  · intro k r hk
    simp only [issue_spec]
    exact (hfresh k r hk).ne'

/-- Witness for C3: issuing on the empty store and verifying the
returned token at the same instant succeeds with subject "u". -/
theorem issue_then_verify_witness :
    verify 0 (issue 100 0 "u" initStore).1.token (issue 100 0 "u" initStore).2 =
      Except.ok { jti := (issue 100 0 "u" initStore).1.jti, userId := "u",
                  expiresAt := (issue 100 0 "u" initStore).1.expiresAt } :=
  (issue_then_verify 100 0 "u" initStore (by decide)
    (fun k r hk => by simp [getKV, initStore] at hk)).1

/-- Claim C7: under fresh generation (all stored keys of both indexes
lie below the counter), `issue` creates exactly one new record — absent
before the call, present under both its jti and its token digest after
— and every other key of either index reads exactly as before. -/
theorem issue_frame (ttl now : Nat) (u : String) (s : Store)
    (hJ : ∀ k r, getKV k s.byJti = some r → k < s.nextId)
    (hH : ∀ h2 j, getKV h2 s.byTokenHash = some j → h2 < s.nextId) :
    getKV (issue ttl now u s).1.jti s.byJti = none ∧
    getKV (hashToken (issue ttl now u s).1.token) s.byTokenHash = none ∧
    getKV (issue ttl now u s).1.jti (issue ttl now u s).2.byJti =
      some { jti := s.nextId, userId := u, tokenHash := hashToken s.nextId,
             expiresAt := now + ttl, rotatedTo := none, revoked := false } ∧
    getKV (hashToken (issue ttl now u s).1.token) (issue ttl now u s).2.byTokenHash =
      some (issue ttl now u s).1.jti ∧
    (∀ k, k ≠ (issue ttl now u s).1.jti →
      getKV k (issue ttl now u s).2.byJti = getKV k s.byJti) ∧
    (∀ h2, h2 ≠ hashToken (issue ttl now u s).1.token →
      getKV h2 (issue ttl now u s).2.byTokenHash = getKV h2 s.byTokenHash) := by
  refine ⟨?_, ?_, ?_, ?_, ?_, ?_⟩
  · cases hk : getKV (issue ttl now u s).1.jti s.byJti with
    | none => rfl
    | some r => exact absurd (hJ _ _ hk) (by simp [issue_spec])
  · cases hk : getKV (hashToken (issue ttl now u s).1.token) s.byTokenHash with
    | none => rfl
    | some j => exact absurd (hH _ _ hk) (by simp [issue_spec, hashToken])
  · simp only [issue_spec]
    exact getKV_setKV_self _ _ _
  · simp only [issue_spec]
    exact getKV_setKV_self _ _ _
  · intro k hk
    simp only [issue_spec] at hk ⊢
    exact getKV_setKV_ne _ _ _ _ hk
  · intro h2 hh
    simp only [issue_spec, hashToken] at hh ⊢
    exact getKV_setKV_ne _ _ _ _ hh

/-- Witness for C7 on the empty store. -/
theorem issue_frame_witness :
    getKV (issue 100 0 "u" initStore).1.jti initStore.byJti = none ∧
    getKV (issue 100 0 "u" initStore).1.jti (issue 100 0 "u" initStore).2.byJti =
      some { jti := 0, userId := "u", tokenHash := 0, expiresAt := 100,
             rotatedTo := none, revoked := false } := by
  have h := issue_frame 100 0 "u" initStore
    (fun k r hk => by simp [getKV, initStore] at hk)
    (fun h2 j hh => by simp [getKV, initStore] at hh)
  exact ⟨h.1, h.2.2.1⟩

/-- Claim C10: `rotate` checks neither the `revoked` flag nor expiry:
for any matched record whose `rotatedTo` was never set — however revoked
or expired it may be — `rotate` succeeds with `reused = false` and
issues a fresh successor for the same subject with a full new TTL, and
the successor's token verifies. -/
theorem rotate_revives_revoked_or_expired (ttl now t j : Nat) (r : RefreshRecord) (s : Store)
    (hT : getKV (hashToken t) s.byTokenHash = some j)
    (hJ : getKV j s.byJti = some r)
    (hnr : r.rotatedTo = none)
    (hF : s.nextId ≠ j)
    (httl : 0 < ttl) :
    (rotate ttl now t s).1 =
      Except.ok ({ token := s.nextId, jti := s.nextId, userId := r.userId,
                   expiresAt := now + ttl }, false) ∧
    verify now s.nextId (rotate ttl now t s).2 =
      Except.ok { jti := s.nextId, userId := r.userId, expiresAt := now + ttl } := by
  rw [rotate_spec ttl now t j r s hT hJ hF]
  constructor
  · simp [hnr]
  · have hexp : isExpired now (now + ttl) = false := by
      simp only [isExpired, ge_iff_le, decide_eq_false_iff_not, not_le]
      omega
    simp only [verify, getKV_setKV_self, hexp]
    rw [getKV_setKV_ne _ _ _ _ hF]
    simp only [getKV_setKV_self, hexp]
    rfl

/-- Witness for C10: record 0 is revoked by logout (`revokeByJti`) and
presented at `now = 200`, past its expiry 100; `rotate` still succeeds
with `reused = false` and the successor token 1 verifies at that same
instant with a fresh expiry 300. -/
theorem rotate_revives_revoked_or_expired_witness :
    (rotate 100 200 0 (revokeByJti 0 (issue 100 0 "u" initStore).2)).1 =
      Except.ok ({ token := 1, jti := 1, userId := "u", expiresAt := 300 }, false) ∧
    verify 200 1 (rotate 100 200 0 (revokeByJti 0 (issue 100 0 "u" initStore).2)).2 =
      Except.ok { jti := 1, userId := "u", expiresAt := 300 } :=
  rotate_revives_revoked_or_expired 100 200 0 0
    { jti := 0, userId := "u", tokenHash := 0, expiresAt := 100,
      rotatedTo := none, revoked := true }
    (revokeByJti 0 (issue 100 0 "u" initStore).2) rfl rfl rfl (by decide) (by decide)

/-! ### Runs of the public operations (for the reachable-state claims) -/

/-- The four public operations, as events of a run; the instant and the
arguments of each call are free in the event. -/
inductive Op where
  | opIssue (now : Nat) (userId : String)
  | opVerify (now : Nat) (token : Nat)
  | opRotate (now : Nat) (token : Nat)
  | opRevoke (jti : Nat)
deriving Repr, DecidableEq

/-- The store after one call (`verify` is a pure read). -/
def applyOp (ttl : Nat) (s : Store) : Op → Store
  | .opIssue now u => (issue ttl now u s).2
  | .opVerify _ _ => s
  | .opRotate now t => (rotate ttl now t s).2
  | .opRevoke j => revokeByJti j s

/-- Run a finite sequence of calls from a store. -/
def runOps (ttl : Nat) (s : Store) : List Op → Store
  | [] => s
  | op :: rest => runOps ttl (applyOp ttl s op) rest

/-- The invariant of claim C5 on the jti index: any record whose
`rotatedTo` is set is revoked. -/
def RotatedRevoked (l : List (Nat × RefreshRecord)) : Prop :=
  ∀ j r, getKV j l = some r → r.rotatedTo ≠ none → r.revoked = true

theorem rotatedRevoked_setKV (l : List (Nat × RefreshRecord)) (k : Nat)
    (v : RefreshRecord) (hv : v.rotatedTo ≠ none → v.revoked = true)
    (hl : RotatedRevoked l) : RotatedRevoked (setKV k v l) := by
  intro j r hj hrot
  by_cases hjk : j = k
  · subst hjk
    rw [getKV_setKV_self] at hj
    have hvr := Option.some.inj hj
    subst hvr
    exact hv hrot
  · rw [getKV_setKV_ne _ _ _ _ hjk] at hj
    exact hl j r hj hrot

theorem rotatedRevoked_applyOp (ttl : Nat) (s : Store) (op : Op)
    (h : RotatedRevoked s.byJti) : RotatedRevoked (applyOp ttl s op).byJti := by
  cases op with
  | opIssue now u =>
    simp only [applyOp, issue_spec]
    exact rotatedRevoked_setKV _ _ _ (fun hc => absurd rfl hc) h
  | opVerify now t => exact h
  | opRotate now t =>
    simp only [applyOp, rotate, issue_spec]
    split
    · exact h
    · split
      · exact h
      · split
        · exact rotatedRevoked_setKV _ _ _ (fun hc => absurd rfl hc)
            (rotatedRevoked_setKV _ _ _ (fun _ => rfl) h)
        · exact rotatedRevoked_setKV _ _ _ (fun _ => rfl)
            (rotatedRevoked_setKV _ _ _ (fun hc => absurd rfl hc)
              (rotatedRevoked_setKV _ _ _ (fun _ => rfl) h))
  | opRevoke j =>
    simp only [applyOp, revokeByJti]
    split
    · exact h
    · exact rotatedRevoked_setKV _ _ _ (fun _ => rfl) h

theorem rotatedRevoked_runOps (ttl : Nat) (ops : List Op) (s : Store)
    (h : RotatedRevoked s.byJti) : RotatedRevoked (runOps ttl s ops).byJti := by
  induction ops generalizing s with
  | nil => exact h
  | cons op rest ih => exact ih _ (rotatedRevoked_applyOp ttl s op h)

/-- Claim C5: in every store reachable from the empty store by a finite
sequence of `issue`, `verify`, `rotate` and `revokeByJti` calls, a
record whose `rotatedTo` is set is revoked, and hence any token whose
digest resolves to that record never verifies successfully. -/
theorem rotated_implies_revoked_reachable (ttl : Nat) (ops : List Op) (j : Nat)
    (r : RefreshRecord)
    (hj : getKV j (runOps ttl initStore ops).byJti = some r)
    (hrot : r.rotatedTo ≠ none) :
    r.revoked = true ∧
    ∀ now t, getKV (hashToken t) (runOps ttl initStore ops).byTokenHash = some j →
      ∀ v, verify now t (runOps ttl initStore ops) ≠ Except.ok v := by
  have hinv : RotatedRevoked (runOps ttl initStore ops).byJti :=
    rotatedRevoked_runOps ttl ops initStore
      (fun j2 r2 hj2 => by simp [getKV, initStore] at hj2)
  have hrev := hinv j r hj hrot
  refine ⟨hrev, ?_⟩
  intro now t hT v hok
  obtain ⟨r2, hm, hr2⟩ := verify_ok_not_revoked now t _ v hok
  unfold matchedRecord at hm
  rw [hT] at hm
  have hm2 : getKV j (runOps ttl initStore ops).byJti = some r2 := hm
  rw [hj] at hm2
  have hrr := Option.some.inj hm2
  subst hrr
  rw [hrev] at hr2
  exact Bool.true_eq_false ▸ hr2

/-- Witness for C5 on the run issue, rotate: record 0 has
`rotatedTo = some 1`, is revoked, and its token 0 no longer verifies. -/
theorem rotated_implies_revoked_reachable_witness :
    ({ jti := 0, userId := "u", tokenHash := 0, expiresAt := 100,
       rotatedTo := some 1, revoked := true } : RefreshRecord).revoked = true ∧
    verify 0 0 (runOps 100 initStore [Op.opIssue 0 "u", Op.opRotate 0 0]) ≠
      Except.ok { jti := 0, userId := "u", expiresAt := 100 } := by
  have h := rotated_implies_revoked_reachable 100 [Op.opIssue 0 "u", Op.opRotate 0 0] 0
    { jti := 0, userId := "u", tokenHash := 0, expiresAt := 100,
      rotatedTo := some 1, revoked := true } rfl (by simp)
  exact ⟨h.1, h.2 0 0 rfl _⟩

/-- The `reused` flags observed by `n` consecutive `rotate` calls that
all present the same old token (the serialization of `n` parallel calls
in the single-threaded runtime, where `rotate` has no suspension point);
a failing call contributes no flag. -/
def reusedFlags (ttl now t : Nat) : Nat → Store → List Bool
  | 0, _ => []
  | n + 1, s =>
    (match (rotate ttl now t s).1 with
     | .ok p => [p.2]
     | .error _ => []) ++ reusedFlags ttl now t n (rotate ttl now t s).2

theorem reusedFlags_replicate_true (ttl now t : Nat) (n : Nat) :
    ∀ (s : Store) (j : Nat) (r : RefreshRecord),
      getKV (hashToken t) s.byTokenHash = some j →
      getKV j s.byJti = some r →
      r.rotatedTo.isSome = true →
      j < s.nextId → hashToken t < s.nextId →
      reusedFlags ttl now t n s = List.replicate n true := by
  induction n with
  | zero => intro s j r _ _ _ _ _; rfl
  | succ n ih =>
    intro s j r hT hJ hrot hj ht
    have hne : hashToken t ≠ hashToken s.nextId := by
      simp only [hashToken] at ht ⊢
      omega
    have hs := rotate_spec ttl now t j r s hT hJ (ne_of_gt hj)
    unfold reusedFlags
    rw [hs]
    simp only [hrot, List.singleton_append]
    rw [List.replicate_succ]
    congr 1
    exact ih _ j { r with revoked := true, rotatedTo := some s.nextId }
      (by rw [getKV_setKV_ne _ _ _ _ hne]; exact hT)
      (getKV_setKV_self _ _ _)
      rfl
      (Nat.lt_succ_of_lt hj)
      (Nat.lt_succ_of_lt ht)

/-- Claim C9: `rotate` is synchronous (no suspension point), so `n + 1`
parallel calls presenting the same freshly issued token execute in some
serial order; whatever that order, the first call observes
`reused = false` and every later call observes `reused = true` — the
flag list is `false :: replicate n true`, and exactly one `false` is
ever observed. -/
theorem rotate_exactly_one_first (ttl now t j n : Nat) (r : RefreshRecord) (s : Store)
    (hT : getKV (hashToken t) s.byTokenHash = some j)
    (hJ : getKV j s.byJti = some r)
    (hnr : r.rotatedTo = none)
    (hj : j < s.nextId) (ht : hashToken t < s.nextId) :
    reusedFlags ttl now t (n + 1) s = false :: List.replicate n true ∧
    (reusedFlags ttl now t (n + 1) s).count false = 1 := by
  have hne : hashToken t ≠ hashToken s.nextId := by
    simp only [hashToken] at ht ⊢
    omega
  have hs := rotate_spec ttl now t j r s hT hJ (ne_of_gt hj)
  have hmain : reusedFlags ttl now t (n + 1) s = false :: List.replicate n true := by
    unfold reusedFlags
    rw [hs]
    simp only [hnr, Option.isSome_none, List.singleton_append]
    congr 1
    exact reusedFlags_replicate_true ttl now t n _ j
      { r with revoked := true, rotatedTo := some s.nextId }
      (by rw [getKV_setKV_ne _ _ _ _ hne]; exact hT)
      (getKV_setKV_self _ _ _)
      rfl
      (Nat.lt_succ_of_lt hj)
      (Nat.lt_succ_of_lt ht)
  refine ⟨hmain, ?_⟩
  rw [hmain]
  simp [List.count_cons, List.count_replicate]

/-- Witness for C9: three consecutive rotations of the single freshly
issued token observe the flags `[false, true, true]`. -/
theorem rotate_exactly_one_first_witness :
    reusedFlags 100 0 0 (2 + 1) (issue 100 0 "u" initStore).2 =
      false :: List.replicate 2 true ∧
    (reusedFlags 100 0 0 (2 + 1) (issue 100 0 "u" initStore).2).count false = 1 :=
  rotate_exactly_one_first 100 0 0 0 2
    { jti := 0, userId := "u", tokenHash := 0, expiresAt := 100,
      rotatedTo := none, revoked := false }
    (issue 100 0 "u" initStore).2 rfl rfl rfl (by decide) (by decide)
